import Mathlib

/-!
# Verification of the notes-app access-control and sharing rules

A shallow embedding of the Go sources of the `notes-app` repository
(identity component in `internal/user`, notes component in
`internal/notes` plus its HTTP handlers and PostgreSQL repository).
Go strings are modelled as Lean `String`s at character granularity;
SQL statements are modelled as the corresponding pure operations on an
explicit database state (`NotesDB`, `UserDB`); fallible Go calls return
`Except String`, carrying the literal error message the Go code builds;
a Go runtime panic (out-of-range slice) is modelled as an `Except.error`
whose message starts with `panic:`.
-/

deriving instance DecidableEq for Except

namespace NotesApp

/-! ## Go standard-library primitives used by the sources -/

/-- Go `strings.ToLower` (ASCII case mapping, as used on note titles). -/
def goToLower (s : String) : String :=
  String.mk (s.toList.map Char.toLower)

/-- Go `strings.ReplaceAll(s, " ", "-")`: the single-character instance of
`ReplaceAll` used by `slugify`, i.e. a character-wise replacement. -/
def goReplaceSpaceHyphen (s : String) : String :=
  String.mk (s.toList.map (fun c => if c = ' ' then '-' else c))

/-- Go slicing `s[:n]`: defined when `n ≤ len(s)`, a runtime panic (modelled
as `none`) otherwise. -/
def goSlice (s : String) (n : Nat) : Option String :=
  if n ≤ s.length then some (String.mk (s.toList.take n)) else none

/-- The Go runtime error produced by an out-of-range slice. -/
def goPanicMsg : String := "panic: runtime error: slice bounds out of range"

/-! ## Notes data model (`internal/notes/notes.go`) -/

/-- The `Note` entity. Timestamps are opaque instants modelled as `Nat`. -/
structure Note where
  id : String
  authorID : String
  title : String
  content : String
  public : Bool
  slug : Option String
  createdAt : Nat
  updatedAt : Nat
deriving DecidableEq, Repr

/-- The `NoteSummary` projection returned by list and update operations. -/
structure NoteSummary where
  id : String
  authorID : String
  title : String
  public : Bool
  slug : Option String
  createdAt : Nat
deriving DecidableEq, Repr

/-- The relational store seen by the notes repository: the `notes` table and
the `note_shares` table (rows are `(note_id, email)` pairs). -/
structure NotesDB where
  notes : List Note
  shares : List (String × String)
deriving DecidableEq, Repr

def noteSummaryOf (n : Note) : NoteSummary :=
  { id := n.id, authorID := n.authorID, title := n.title,
    public := n.public, slug := n.slug, createdAt := n.createdAt }

/-! ## Slug helpers (`internal/notes/service.go`) -/

/-- `slugify`: lowercase the title, then replace every space by a hyphen. -/
def slugify (title : String) : String :=
  goReplaceSpaceHyphen (goToLower title)

/-- `slugifyWithID`: `slugify(title) + "-" + id[:6]`.  The Go code slices
`id[:6]` without a length check, so the result is `none` (a panic) whenever
the identifier has fewer than 6 characters. -/
def slugifyWithID (title id : String) : Option String :=
  (goSlice id 6).map (fun shortID => slugify title ++ "-" ++ shortID)

/-! ## PostgreSQL notes repository (`postgresNotesRepository`) -/

/-- `CreateNote`: `INSERT` the row (with the caller-supplied slug, `nil` from
the handler), let storage assign `id`/`created_at`/`updated_at`, then compute
`slugifyWithID` on the assigned id and `UPDATE` the slug — unconditionally,
whatever the `public` flag.  The insert happens before the slug computation,
so on a panic the inserted row is already in the store. -/
def repoCreateNote (db : NotesDB) (newId : String) (now : Nat) (n : Note) :
    Except String Note × NotesDB :=
  let inserted : Note := { n with id := newId, createdAt := now, updatedAt := now }
  let db1 : NotesDB := { db with notes := db.notes ++ [inserted] }
  match slugifyWithID n.title newId with
  | none => (Except.error goPanicMsg, db1)
  | some slug =>
      let setSlug : Note → Note :=
        fun m => if m.id == newId then { m with slug := some slug } else m
      let db2 : NotesDB := { db1 with notes := db1.notes.map setSlug }
      (Except.ok { inserted with slug := some slug }, db2)

/-- `QueryRow(...).Scan` over the notes table: the first row satisfying the
`WHERE` clause, or a scan error when the result set is empty. -/
def queryRow (l : List Note) (p : Note → Bool) (msg : String) : Except String Note :=
  match l.find? p with
  | some n => Except.ok n
  | none => Except.error msg

/-- The `WHERE author_id = $1 AND id = $2` clause shared by the by-id lookup,
the update and (with the argument order of `DeleteNote`) the delete. -/
def ownedCond (noteID authorID : String) : Note → Bool :=
  fun m => m.authorID == authorID && m.id == noteID

/-- `GetNoteByID`: `SELECT ... WHERE author_id = $1 AND id = $2`; scanning an
empty result set yields the wrapped pgx no-rows error. -/
def repoGetNoteByID (db : NotesDB) (noteID authorID : String) : Except String Note :=
  queryRow db.notes (ownedCond noteID authorID)
    "could not find the requested note: no rows in result set"

/-- `DeleteNote`: `DELETE ... WHERE id = $1 AND author_id = $2`; zero affected
rows is reported with one fixed error message. -/
def repoDeleteNote (db : NotesDB) (noteID authorID : String) :
    Except String Unit × NotesDB :=
  let affected := db.notes.countP (ownedCond noteID authorID)
  let db' : NotesDB :=
    { db with notes := db.notes.filter (fun m => !(ownedCond noteID authorID m)) }
  if affected == 0 then (Except.error "error could not found any note to delete", db')
  else (Except.ok (), db')

/-- The `SET` clause of `UpdateNote`, applied to the rows matched by
`ownedCond`. -/
def applyUpdate (n : Note) (now : Nat) (newSlug : String) : Note → Note :=
  fun m =>
    if ownedCond n.id n.authorID m then
      { m with title := n.title, content := n.content, public := n.public,
               slug := some newSlug, updatedAt := now }
    else m

/-- `UpdateNote`: first computes `slugifyWithID(n.Title, n.ID)` (panicking on a
short id before touching the store), then `UPDATE ... WHERE author_id = $1 AND
id = $2 RETURNING ...`; an empty returned row set is the scan error. -/
def repoUpdateNote (db : NotesDB) (now : Nat) (n : Note) :
    Except String NoteSummary × NotesDB :=
  match slugifyWithID n.title n.id with
  | none => (Except.error goPanicMsg, db)
  | some newSlug =>
      let notes2 := db.notes.map (applyUpdate n now newSlug)
      let db' : NotesDB := { db with notes := notes2 }
      match notes2.find? (ownedCond n.id n.authorID) with
      | some m => (Except.ok (noteSummaryOf m), db')
      | none => (Except.error "failed to update note: no rows in result set", db')

/-- The anonymous branch of `GetNoteBySlug`: `WHERE slug = $1 AND public = TRUE`. -/
def anonVisible (slug : String) : Note → Bool :=
  fun n => n.slug == some slug && n.public

/-- The logged-in branch of `GetNoteBySlug`: `WHERE n.slug = $1 AND (n.public =
TRUE OR n.author_id = $2 OR ns.email = $3)` after the `LEFT JOIN note_shares`. -/
def authVisible (db : NotesDB) (slug uid email : String) : Note → Bool :=
  fun n => n.slug == some slug &&
    (n.public || n.authorID == uid ||
      db.shares.any (fun sh => sh.1 == n.id && sh.2 == email))

/-- `GetNoteBySlug`: an anonymous caller (`userID == nil`) sees a row only when
`slug` matches and `public = TRUE`; a logged-in caller sees a row when `slug`
matches and (`public` OR `author_id = userID` OR a `note_shares` row joins this
note to the caller's email).  `LIMIT 1`/`QueryRow` returns the first such row;
no row is the scan error. -/
def repoGetNoteBySlug (db : NotesDB) (slug : String)
    (ident : Option (String × String)) : Except String Note :=
  match ident with
  | none =>
      queryRow db.notes (anonVisible slug)
        "note not found or access denied: no rows in result set"
  | some (uid, email) =>
      queryRow db.notes (authVisible db slug uid email)
        "note not found or access denied: no rows in result set"

/-! ## Notes service layer (`internal/notes/service.go`) -/

def serviceCreateNote (db : NotesDB) (newId : String) (now : Nat) (n : Note) :
    Except String Note × NotesDB :=
  if n.authorID == "" then (Except.error "missing authour id", db)
  else if n.content == "" then (Except.error "missing content", db)
  else if n.title == "" then (Except.error "missing title", db)
  else
    match repoCreateNote db newId now { n with createdAt := now, updatedAt := now } with
    | (Except.error e, db') => (Except.error ("failed to create note: " ++ e), db')
    | (Except.ok m, db') => (Except.ok m, db')

def serviceGetUserNote (db : NotesDB) (noteID userID : String) : Except String Note :=
  if userID == "" then Except.error "userID is required"
  else
    match repoGetNoteByID db noteID userID with
    | Except.error e => Except.error ("error while fetching the note by id " ++ e)
    | Except.ok n => Except.ok n

def serviceDeleteNote (db : NotesDB) (noteID userID : String) :
    Except String Unit × NotesDB :=
  if userID == "" then (Except.error "userID is required", db)
  else
    match repoDeleteNote db noteID userID with
    | (Except.error e, db') => (Except.error ("error while deleting the note by id " ++ e), db')
    | (Except.ok _, db') => (Except.ok (), db')

def serviceUpdateNote (db : NotesDB) (now : Nat) (n : Note) :
    Except String NoteSummary × NotesDB :=
  if n.authorID == "" then (Except.error "missing authour id", db)
  else if n.content == "" then (Except.error "missing content", db)
  else if n.title == "" then (Except.error "missing title", db)
  else repoUpdateNote db now n

def serviceGetPublicNote (db : NotesDB) (slug : String)
    (ident : Option (String × String)) : Except String Note :=
  match repoGetNoteBySlug db slug ident with
  | Except.error e => Except.error ("error " ++ e)
  | Except.ok n => Except.ok n

/-! ## HTTP handlers (`NoteHandler`) -/

/-- `GetUserNoteById`: method gate (a non-GET is answered 400 in this code),
auth gate (missing or empty context user → 401), then the id query parameter
is compared against a single space `" "` — not the empty string — before the
service call; a service error surfaces as 500. -/
def handlerGetUserNoteById (db : NotesDB) (method : String)
    (ctxUser : Option String) (idParam : String) : Nat :=
  if method != "GET" then 400
  else
    match ctxUser with
    | none => 401
    | some uid =>
        if uid == "" then 401
        else if idParam == " " then 400
        else
          match serviceGetUserNote db idParam uid with
          | Except.error _ => 500
          | Except.ok _ => 200

/-- `DeleteNote` handler: same shape as `GetUserNoteById`, with the same
`" "` comparison on the id query parameter. -/
def handlerDeleteNote (db : NotesDB) (method : String)
    (ctxUser : Option String) (idParam : String) : Nat :=
  if method != "DELETE" then 400
  else
    match ctxUser with
    | none => 401
    | some uid =>
        if uid == "" then 401
        else if idParam == " " then 400
        else
          match (serviceDeleteNote db idParam uid).1 with
          | Except.error _ => 500
          | Except.ok _ => 200

/-! ## Identity component (`internal/user`) -/

/-- The `User` entity (`internal/user/user.go`). -/
structure User where
  id : String
  email : String
  name : String
  password : String
  createdAt : Nat
deriving DecidableEq, Repr

/-- The `users` table behind the user repository. -/
structure UserDB where
  users : List User
deriving DecidableEq, Repr

/-- The payload of the signed bearer credential issued on login. -/
structure TokenClaims where
  userId : String
  email : String
  exp : Nat
deriving DecidableEq, Repr

def ErrInvalidEmail : String := "invalid email format provided"

def ErrWeakPassword : String := "password length is less than 8 chars"

def ErrEmailExists : String := "email provided is already in use"

def ErrInvalidLogin : String := "wrong email/password combination provided"

/-- A character of the local part of the email pattern:
the class `[a-zA-Z0-9._%+\-]`. -/
def isLocalChar (c : Char) : Bool :=
  c.isAlpha || c.isDigit || c = '.' || c = '_' || c = '%' || c = '+' || c = '-'

/-- A character of the domain part: the class `[a-zA-Z0-9.\-]`. -/
def isDomainChar (c : Char) : Bool :=
  c.isAlpha || c.isDigit || c = '.' || c = '-'

/-- `[a-zA-Z]{2,}$`: at least two letters, to the end. -/
def matchTLD (cs : List Char) : Bool :=
  decide (2 ≤ cs.length) && cs.all Char.isAlpha

/-- `[a-zA-Z0-9.\-]+\.[a-zA-Z]{2,}$`: some admissible split into a non-empty
domain body, a dot, and a TLD. -/
def matchDomain (cs : List Char) : Bool :=
  (List.range cs.length).any (fun i =>
    decide (1 ≤ i) && (cs.take i).all isDomainChar &&
      match cs.drop i with
      | '.' :: rest => matchTLD rest
      | _ => false)

/-- The anchored email pattern
`^[a-zA-Z0-9._%+\-]+@[a-zA-Z0-9.\-]+\.[a-zA-Z]{2,}$` of
`internal/user/service.go`, as existence of an admissible decomposition. -/
def emailMatch (s : String) : Bool :=
  (List.range s.toList.length).any (fun i =>
    decide (1 ≤ i) && (s.toList.take i).all isLocalChar &&
      match s.toList.drop i with
      | '@' :: rest => matchDomain rest
      | _ => false)

/-- `Register`: email-pattern gate, then password-length gate, then the
duplicate-email lookup (whose own error is discarded by the Go code), then the
insert of the bcrypt-hashed user; the returned copy has its password cleared.
The storage-assigned id and creation instant are the `newId`/`now` arguments;
the one-way hash is the `hash` argument. -/
def register (db : UserDB) (hash : String → String) (newId : String) (now : Nat)
    (email name password : String) : Except String User × UserDB :=
  if emailMatch email = false then (Except.error ErrInvalidEmail, db)
  else if password.length < 8 then (Except.error ErrWeakPassword, db)
  else
    match db.users.find? (fun u => u.email == email) with
    | some _ => (Except.error ErrEmailExists, db)
    | none =>
        let stored : User := { id := newId, email := email, name := name,
                               password := hash password, createdAt := now }
        (Except.ok { stored with password := "" }, { users := db.users ++ [stored] })

/-- `Login`: lookup by email (a miss is the generic invalid-login error), then
the bcrypt comparison (`verify stored-hash password`, a mismatch is the same
generic error), then the signed credential with a 24-hour expiry. -/
def login (db : UserDB) (verify : String → String → Bool) (now : Nat)
    (email password : String) : Except String (User × TokenClaims) :=
  match db.users.find? (fun u => u.email == email) with
  | none => Except.error ErrInvalidLogin
  | some u =>
      if verify u.password password = false then Except.error ErrInvalidLogin
      else
        Except.ok ({ u with password := "" },
          { userId := u.id, email := u.email, exp := now + 24 * 60 * 60 })

/-! ## Sample data used by witnesses and counterexamples -/

/-- A stand-in for the bcrypt hash in concrete evaluations. -/
def idHash : String → String := fun p => p

/-- A stand-in for the bcrypt comparison in concrete evaluations. -/
def verifyEq : String → String → Bool := fun stored pwd => stored == pwd

def regDB : UserDB :=
  { users := [{ id := "u1", email := "a@b.co", name := "Alice",
                password := "hashedpw1", createdAt := 0 }] }


def sampleNote : Note :=
  { id := "note-0001", authorID := "user-1", title := "My First Note",
    content := "hello", public := false, slug := none, createdAt := 0, updatedAt := 0 }

def emptyDB : NotesDB := { notes := [], shares := [] }

def otherOwnerDB : NotesDB :=
  { notes := [{ sampleNote with authorID := "user-2" }], shares := [] }

/-- Success test for a fallible operation (Go `err == nil`). -/
def isOkE {ε α : Type} : Except ε α → Bool
  | Except.ok _ => true
  | Except.error _ => false

/-- Modelled from the spec's words, for comparison with `slugifyWithID`:
"lowercase the title, replace spaces with hyphens, then append a hyphen and
the first 6 characters of the note's identifier". -/
def slugSpecOfTitleID (title id : String) : String :=
  String.mk ((title.toList.map Char.toLower).map (fun c => if c = ' ' then '-' else c))
    ++ "-" ++ String.mk (id.toList.take 6)

/-- A concrete store holding one private shared note. -/
def sharedDB : NotesDB :=
  { notes := [{ sampleNote with slug := some "my-first-note-note-0", public := false }],
    shares := [("note-0001", "friend@example.com")] }

/-! ## Helper lemmas -/

theorem map_eq_self_of_fix {α : Type} (f : α → α) (l : List α)
    (h : ∀ a ∈ l, f a = a) : l.map f = l := by
  induction l with
  | nil => rfl
  | cons x xs ih =>
      simp only [List.map_cons, List.cons.injEq]
      exact ⟨h x (List.mem_cons_self x xs), ih (fun a ha => h a (List.mem_cons_of_mem x ha))⟩

/-! ## C4: slug derivation -/

/-- C4: for every title and every identifier of at least 6 characters, the
derived slug is the lowercased, hyphen-joined title followed by a hyphen and
the first 6 characters of the identifier. -/
theorem slug_matches_spec (title id : String) (h : 6 ≤ id.length) :
    slugifyWithID title id = some (slugSpecOfTitleID title id) := by
  unfold slugifyWithID goSlice
  rw [if_pos h]
  rfl

/-- C4 witness: the spec's example scenario — title `"My First Note"` with a
9-character identifier yields `my-first-note-` followed by the identifier's
first six characters. -/
theorem slug_matches_spec_witness :
    6 ≤ ("abc123xyz" : String).length ∧
      slugifyWithID "My First Note" "abc123xyz" = some "my-first-note-abc123" := by
  refine ⟨by decide, ?_⟩
  rw [slug_matches_spec "My First Note" "abc123xyz" (by decide)]
  decide

/-! ## C9: slug derivation is not total -/

/-- C9: `slugifyWithID` slices `id[:6]` unchecked, so every identifier shorter
than 6 characters makes it panic rather than return a slug; both the create
path and the update path of the repository hit that panic. -/
theorem slugifyWithID_short_id_panics (db : NotesDB) (now : Nat) (n : Note)
    (id : String) (h : id.length < 6) :
    slugifyWithID n.title id = none ∧
    (repoCreateNote db id now n).1 = Except.error goPanicMsg ∧
    (repoUpdateNote db now { n with id := id }).1 = Except.error goPanicMsg := by
  have hs : slugifyWithID n.title id = none := by
    unfold slugifyWithID goSlice
    rw [if_neg (by omega)]
    rfl
  refine ⟨hs, ?_, ?_⟩
  · unfold repoCreateNote
    rw [hs]
  · unfold repoUpdateNote
    have : slugifyWithID (Note.title { n with id := id }) id = none := hs
    rw [show (Note.id { n with id := id }) = id from rfl, this]

/-- C9 witness: a 3-character identifier panics on both paths. -/
theorem slugifyWithID_short_id_panics_witness :
    ("abc" : String).length < 6 ∧
      (slugifyWithID sampleNote.title "abc" = none ∧
       (repoCreateNote emptyDB "abc" 0 sampleNote).1 = Except.error goPanicMsg ∧
       (repoUpdateNote emptyDB 0 { sampleNote with id := "abc" }).1 = Except.error goPanicMsg) :=
  ⟨by decide, slugifyWithID_short_id_panics emptyDB 0 sampleNote "abc" (by decide)⟩

/-! ## C2: slug present iff public — refuted, create always sets a slug -/

/-- C2 counterexample: creating `sampleNote` (whose `public` flag is `false`)
through the service yields a stored note whose slug is present and non-empty,
refuting "a note created with `public=false` has no slug". -/
theorem create_private_note_has_slug_counterexample :
    (serviceCreateNote emptyDB "abcdef" 0 sampleNote).1 =
      Except.ok { sampleNote with id := "abcdef", slug := some "my-first-note-abcdef" } ∧
    sampleNote.public = false ∧
    (some "my-first-note-abcdef" : Option String) ≠ none := by
  refine ⟨by decide, rfl, by decide⟩

/-- C2 amended: after a create with non-empty author, title and content and a
storage-assigned identifier of at least 6 characters, the returned note always
carries the non-empty slug `slugify(title) + "-" + id[:6]` — for `public=true`
as the claim states, but equally for `public=false` (the repository writes the
slug unconditionally after the insert). -/
theorem create_always_sets_slug (db : NotesDB) (newId : String) (now : Nat) (n : Note)
    (ha : n.authorID ≠ "") (hc : n.content ≠ "") (ht : n.title ≠ "")
    (hid : 6 ≤ newId.length) :
    (serviceCreateNote db newId now n).1 =
      Except.ok { n with id := newId, createdAt := now, updatedAt := now,
                         slug := some (slugify n.title ++ "-" ++ String.mk (newId.toList.take 6)) } ∧
    slugify n.title ++ "-" ++ String.mk (newId.toList.take 6) ≠ "" := by
  constructor
  · have hslug : slugifyWithID n.title newId =
        some (slugify n.title ++ "-" ++ String.mk (newId.toList.take 6)) := by
      unfold slugifyWithID goSlice
      rw [if_pos hid]
      rfl
    obtain ⟨nid, na, nt, nc, np, ns, ncr, nu⟩ := n
    simp only [Note.authorID] at ha
    simp only [Note.content] at hc
    simp only [Note.title] at ht
    simp only [Note.title] at hslug
    simp [serviceCreateNote, repoCreateNote, ha, hc, ht, hslug]
  · intro hEq
    have hlen := congrArg String.length hEq
    rw [String.length_append, String.length_append] at hlen
    have h1 : ("-" : String).length = 1 := rfl
    have h0 : ("" : String).length = 0 := rfl
    rw [h1, h0] at hlen
    omega

/-- C2 witness for the amended statement, at a concrete private note. -/
theorem create_always_sets_slug_witness :
    (sampleNote.authorID ≠ "" ∧ sampleNote.content ≠ "" ∧ sampleNote.title ≠ "" ∧
      6 ≤ ("abcdef0" : String).length) ∧
    ((serviceCreateNote emptyDB "abcdef0" 0 sampleNote).1 = Except.ok { sampleNote with id := "abcdef0", createdAt := 0, updatedAt := 0, slug := some (slugify sampleNote.title ++ "-" ++ String.mk ("abcdef0".toList.take 6)) } ∧
     slugify sampleNote.title ++ "-" ++ String.mk ("abcdef0".toList.take 6) ≠ "") :=
  ⟨⟨by decide, by decide, by decide, by decide⟩,
    create_always_sets_slug emptyDB "abcdef0" 0 sampleNote
      (by decide) (by decide) (by decide) (by decide)⟩

/-! ## C1: slug lookup access rules -/

theorem queryRow_isOk (l : List Note) (p : Note → Bool) (msg : String) :
    isOkE (queryRow l p msg) = true ↔ ∃ n ∈ l, p n = true := by
  cases hf : l.find? p with
  | none =>
      have he : queryRow l p msg = Except.error msg := by
        unfold queryRow
        rw [hf]
      rw [he]
      simp only [isOkE]
      constructor
      · intro h
        simp at h
      · rintro ⟨n, hn, hp⟩
        rw [List.find?_eq_none] at hf
        exact absurd hp (hf n hn)
  | some n =>
      have he : queryRow l p msg = Except.ok n := by
        unfold queryRow
        rw [hf]
      rw [he]
      simp only [isOkE]
      exact iff_of_true trivial ⟨n, List.mem_of_find?_eq_some hf, List.find?_some hf⟩

/-- C1: by-slug lookup.  Anonymous: a note is returned exactly when a note
with that slug exists and is public.  Authenticated as `(uid, em)`: a note is
returned exactly when a note with that slug exists and is public, or owned by
`uid`, or has a share grant for `em`; in every other case the lookup fails. -/
theorem getNoteBySlug_access (db : NotesDB) (s : String) :
    (isOkE (repoGetNoteBySlug db s none) = true ↔
       ∃ n ∈ db.notes, n.slug = some s ∧ n.public = true) ∧
    (∀ uid em, isOkE (repoGetNoteBySlug db s (some (uid, em))) = true ↔
       ∃ n ∈ db.notes, n.slug = some s ∧
         (n.public = true ∨ n.authorID = uid ∨
           ∃ sh ∈ db.shares, sh.1 = n.id ∧ sh.2 = em)) := by
  constructor
  · rw [show repoGetNoteBySlug db s none =
        queryRow db.notes (anonVisible s)
          "note not found or access denied: no rows in result set" from rfl]
    rw [queryRow_isOk]
    unfold anonVisible
    simp [Bool.and_eq_true, beq_iff_eq]
  · intro uid em
    rw [show repoGetNoteBySlug db s (some (uid, em)) =
        queryRow db.notes (authVisible db s uid em)
          "note not found or access denied: no rows in result set" from rfl]
    rw [queryRow_isOk]
    unfold authVisible
    simp [Bool.and_eq_true, Bool.or_eq_true, beq_iff_eq, List.any_eq_true, or_assoc]

theorem getNoteBySlug_access_witness :
    (isOkE (repoGetNoteBySlug sharedDB "my-first-note-note-0" none) = true ↔
       ∃ n ∈ sharedDB.notes, n.slug = some "my-first-note-note-0" ∧ n.public = true) ∧
    (∀ uid em, isOkE (repoGetNoteBySlug sharedDB "my-first-note-note-0" (some (uid, em))) = true ↔
       ∃ n ∈ sharedDB.notes, n.slug = some "my-first-note-note-0" ∧
         (n.public = true ∨ n.authorID = uid ∨
           ∃ sh ∈ sharedDB.shares, sh.1 = n.id ∧ sh.2 = em)) :=
  getNoteBySlug_access sharedDB "my-first-note-note-0"

/-! ## C3: update of an unowned note -/

/-- C3: when no stored note has both the target id and the caller as owner
(the note does not exist, or belongs to someone else), `UpdateNote` through
the service fails and the store is returned completely unchanged. -/
theorem updateNote_unowned_fails (db : NotesDB) (now : Nat) (n : Note)
    (h : ∀ m ∈ db.notes, ¬(m.id = n.id ∧ m.authorID = n.authorID)) :
    (∃ e, (serviceUpdateNote db now n).1 = Except.error e) ∧
    (serviceUpdateNote db now n).2 = db := by
  have hb : ∀ m ∈ db.notes, ownedCond n.id n.authorID m = false := by
    intro m hm
    rcases Bool.eq_false_or_eq_true (ownedCond n.id n.authorID m) with ht | hf
    · exfalso
      apply h m hm
      unfold ownedCond at ht
      simp only [Bool.and_eq_true, beq_iff_eq] at ht
      exact ⟨ht.2, ht.1⟩
    · exact hf
  have hrepo : (∃ e, (repoUpdateNote db now n).1 = Except.error e) ∧
      (repoUpdateNote db now n).2 = db := by
    unfold repoUpdateNote
    cases hs : slugifyWithID n.title n.id with
    | none => exact ⟨⟨goPanicMsg, rfl⟩, rfl⟩
    | some newSlug =>
        have hmap : db.notes.map (applyUpdate n now newSlug) = db.notes := by
          apply map_eq_self_of_fix
          intro m hm
          unfold applyUpdate
          rw [hb m hm]
          rfl
        have hfind : db.notes.find? (ownedCond n.id n.authorID) = none :=
          List.find?_eq_none.mpr (fun m hm => by simp [hb m hm])
        simp only [hmap, hfind]
        exact ⟨⟨"failed to update note: no rows in result set", rfl⟩, trivial⟩
  unfold serviceUpdateNote
  cases hA : n.authorID == "" with
  | true => exact ⟨⟨"missing authour id", rfl⟩, rfl⟩
  | false =>
      cases hC : n.content == "" with
      | true => exact ⟨⟨"missing content", rfl⟩, rfl⟩
      | false =>
          cases hT : n.title == "" with
          | true => exact ⟨⟨"missing title", rfl⟩, rfl⟩
          | false => simpa using hrepo

/-- C3 witness: updating `sampleNote` (owned by `user-1`) against a store
whose only copy of that note belongs to `user-2` fails and changes nothing. -/
theorem updateNote_unowned_fails_witness :
    (∀ m ∈ otherOwnerDB.notes, ¬(m.id = sampleNote.id ∧ m.authorID = sampleNote.authorID)) ∧
    ((∃ e, (serviceUpdateNote otherOwnerDB 7 sampleNote).1 = Except.error e) ∧
     (serviceUpdateNote otherOwnerDB 7 sampleNote).2 = otherOwnerDB) :=
  ⟨by decide, updateNote_unowned_fails otherOwnerDB 7 sampleNote (by decide)⟩

/-! ## C8: delete only by the owner -/

/-- C8: `DeleteNote` succeeds exactly when a note with the given id owned by
the caller exists; on success exactly the matching rows are removed; when zero
rows are affected — the note does not exist or belongs to someone else — it
fails with the one fixed not-found error, leaving the store unchanged. -/
theorem deleteNote_owner_semantics (db : NotesDB) (nid uid : String) :
    ((repoDeleteNote db nid uid).1 = Except.ok () ↔
       ∃ m ∈ db.notes, m.id = nid ∧ m.authorID = uid) ∧
    (repoDeleteNote db nid uid).2.notes =
       db.notes.filter (fun m => !(ownedCond nid uid m)) ∧
    (∀ e, (repoDeleteNote db nid uid).1 = Except.error e →
       e = "error could not found any note to delete" ∧
         (repoDeleteNote db nid uid).2 = db) := by
  have hex : (∃ m ∈ db.notes, ownedCond nid uid m = true) ↔
      ∃ m ∈ db.notes, m.id = nid ∧ m.authorID = uid := by
    unfold ownedCond
    simp [Bool.and_eq_true, beq_iff_eq, and_comm]
  rcases Nat.eq_zero_or_pos (db.notes.countP (ownedCond nid uid)) with h0 | hpos
  · have hz : (db.notes.countP (ownedCond nid uid) == 0) = true := by
      rw [h0]
      rfl
    have hres : repoDeleteNote db nid uid =
        (Except.error "error could not found any note to delete",
         { db with notes := db.notes.filter (fun m => !(ownedCond nid uid m)) }) := by
      unfold repoDeleteNote
      simp [hz]
    have hall : ∀ m ∈ db.notes, ¬ownedCond nid uid m = true := List.countP_eq_zero.mp h0
    have hfe : db.notes.filter (fun m => !(ownedCond nid uid m)) = db.notes :=
      List.filter_eq_self.mpr (fun m hm => by simp [Bool.eq_false_iff.mpr (hall m hm)])
    rw [hres]
    refine ⟨?_, rfl, ?_⟩
    · apply iff_of_false
      · intro hcontra
        exact Except.noConfusion hcontra
      · intro hcontra
        rcases hex.mpr hcontra with ⟨m, hm, hp⟩
        exact hall m hm hp
    · intro e he
      refine ⟨(Except.error.injEq _ _).mp he.symm, ?_⟩
      rw [hfe]
  · have hz : (db.notes.countP (ownedCond nid uid) == 0) = false := by
      cases he : db.notes.countP (ownedCond nid uid) with
      | zero => omega
      | succ k => rfl
    have hres : repoDeleteNote db nid uid =
        (Except.ok (),
         { db with notes := db.notes.filter (fun m => !(ownedCond nid uid m)) }) := by
      unfold repoDeleteNote
      simp [hz]
    rw [hres]
    refine ⟨?_, rfl, ?_⟩
    · exact iff_of_true rfl (hex.mp (List.countP_pos_iff.mp hpos))
    · intro e he
      exact Except.noConfusion he

/-- C8 witness: deleting `sampleNote`'s id as a non-owner fails with the
not-found error and removes nothing. -/
theorem deleteNote_owner_semantics_witness :
    ((repoDeleteNote otherOwnerDB "note-0001" "user-1").1 = Except.ok () ↔
       ∃ m ∈ otherOwnerDB.notes, m.id = "note-0001" ∧ m.authorID = "user-1") ∧
    (repoDeleteNote otherOwnerDB "note-0001" "user-1").2.notes =
       otherOwnerDB.notes.filter (fun m => !(ownedCond "note-0001" "user-1" m)) ∧
    (∀ e, (repoDeleteNote otherOwnerDB "note-0001" "user-1").1 = Except.error e →
       e = "error could not found any note to delete" ∧
         (repoDeleteNote otherOwnerDB "note-0001" "user-1").2 = otherOwnerDB) :=
  deleteNote_owner_semantics otherOwnerDB "note-0001" "user-1"

/-! ## C10: handlers test the id parameter against a single space -/

/-- C10: the get-by-id and delete handlers compare the `id` query parameter
against `" "` (one space), not `""`: a request whose id parameter is absent or
empty (the parameter decodes to `""`) is not rejected as a 400 client error
but reaches the service and surfaces as a 500 internal error, while the
literal value `" "` is the one input answered with 400. -/
theorem handlers_empty_id_not_rejected (db : NotesDB) (uid : String)
    (hu : uid ≠ "") (hid : ∀ m ∈ db.notes, m.id ≠ "") :
    handlerGetUserNoteById db "GET" (some uid) "" = 500 ∧
    handlerDeleteNote db "DELETE" (some uid) "" = 500 ∧
    handlerGetUserNoteById db "GET" (some uid) " " = 400 ∧
    handlerDeleteNote db "DELETE" (some uid) " " = 400 := by
  have huB : (uid == "") = false := by
    rcases Bool.eq_false_or_eq_true (uid == "") with ht | hf
    · exact absurd (by simpa [beq_iff_eq] using ht) hu
    · exact hf
  have hfind : db.notes.find? (ownedCond "" uid) = none :=
    List.find?_eq_none.mpr (fun m hm => by
      unfold ownedCond
      simp [hid m hm])
  have hcount : db.notes.countP (ownedCond "" uid) = 0 :=
    List.countP_eq_zero.mpr (fun m hm => by
      unfold ownedCond
      simp [hid m hm])
  have e1 : (("GET" : String) != "GET") = false := by decide
  have e2 : (("DELETE" : String) != "DELETE") = false := by decide
  have e3 : (("" : String) == " ") = false := by decide
  have e4 : ((" " : String) == " ") = true := by decide
  refine ⟨?_, ?_, ?_, ?_⟩
  · simp [handlerGetUserNoteById, e1, huB, e3, serviceGetUserNote,
      repoGetNoteByID, queryRow, hfind]
  · simp [handlerDeleteNote, e2, huB, e3, serviceDeleteNote,
      repoDeleteNote, hcount]
  · simp [handlerGetUserNoteById, e1, huB, e4]
  · simp [handlerDeleteNote, e2, huB, e4]

/-- C10 witness: a store holding one note with a storage-assigned id. -/
theorem handlers_empty_id_not_rejected_witness :
    (("user-1" : String) ≠ "" ∧ (∀ m ∈ otherOwnerDB.notes, m.id ≠ "")) ∧
    (handlerGetUserNoteById otherOwnerDB "GET" (some "user-1") "" = 500 ∧
     handlerDeleteNote otherOwnerDB "DELETE" (some "user-1") "" = 500 ∧
     handlerGetUserNoteById otherOwnerDB "GET" (some "user-1") " " = 400 ∧
     handlerDeleteNote otherOwnerDB "DELETE" (some "user-1") " " = 400) :=
  ⟨⟨by decide, by decide⟩,
    handlers_empty_id_not_rejected otherOwnerDB "user-1" (by decide) (by decide)⟩

/-! ## C5: duplicate registration — refuted for short passwords -/

/-- C5 counterexample: with an account under `a@b.co` already stored, a second
`Register` for the same email with the 2-character password `"pw"` fails with
`ErrWeakPassword`, not `ErrEmailExists` — the strength check runs before the
duplicate check. -/
theorem register_duplicate_weak_password_counterexample :
    (∃ u ∈ regDB.users, u.email = "a@b.co") ∧
    (register regDB idHash "u2" 1 "a@b.co" "Bob" "pw").1 = Except.error ErrWeakPassword ∧
    ErrWeakPassword ≠ ErrEmailExists := by
  refine ⟨by decide, by decide, by decide⟩

/-- C5 amended: a second `Register` with an already-present email always
fails, whatever the name or password; it fails with `ErrEmailExists` whenever
the supplied password has at least 8 characters (shorter passwords fail
earlier with `ErrWeakPassword`). -/
theorem register_duplicate_email_fails (db : UserDB) (hash : String → String)
    (newId : String) (now : Nat) (email name password : String)
    (hm : emailMatch email = true) (hex : ∃ u ∈ db.users, u.email = email) :
    isOkE (register db hash newId now email name password).1 = false ∧
    (8 ≤ password.length →
       register db hash newId now email name password = (Except.error ErrEmailExists, db)) := by
  have hcond : ¬(emailMatch email = false) := fun hc => by
    rw [hm] at hc
    exact Bool.noConfusion hc
  have hfind : ∃ u, db.users.find? (fun x => x.email == email) = some u := by
    rcases hex with ⟨u, hu, he⟩
    have hsome : (db.users.find? (fun x => x.email == email)).isSome = true :=
      List.find?_isSome.mpr ⟨u, hu, by simp [he]⟩
    exact Option.isSome_iff_exists.mp hsome
  rcases hfind with ⟨u, hu⟩
  constructor
  · unfold register
    rw [if_neg hcond]
    by_cases hlt : password.length < 8
    · rw [if_pos hlt]
      rfl
    · rw [if_neg hlt, hu]
      rfl
  · intro h8
    unfold register
    rw [if_neg hcond, if_neg (by omega), hu]

/-- C5 witness for the amended statement. -/
theorem register_duplicate_email_fails_witness :
    (emailMatch "a@b.co" = true ∧ ∃ u ∈ regDB.users, u.email = "a@b.co") ∧
    (isOkE (register regDB idHash "u2" 1 "a@b.co" "Bob" "longpass8").1 = false ∧
     (8 ≤ ("longpass8" : String).length →
        register regDB idHash "u2" 1 "a@b.co" "Bob" "longpass8" =
          (Except.error ErrEmailExists, regDB))) :=
  ⟨⟨by decide, by decide⟩,
    register_duplicate_email_fails regDB idHash "u2" 1 "a@b.co" "Bob" "longpass8"
      (by decide) (by decide)⟩

/-! ## C6: login failures are one generic error -/

/-- C6: `Login` succeeds exactly when the email lookup finds an account whose
stored hash matches the password; every failure — unknown email as much as a
hash mismatch — returns the single generic `ErrInvalidLogin`, so the two
causes are indistinguishable from the returned error. -/
theorem login_generic_invalid_credentials (db : UserDB)
    (verify : String → String → Bool) (now : Nat) (email password : String) :
    (isOkE (login db verify now email password) = true ↔
       ∃ u, db.users.find? (fun x => x.email == email) = some u ∧
         verify u.password password = true) ∧
    (∀ e, login db verify now email password = Except.error e → e = ErrInvalidLogin) ∧
    (db.users.find? (fun x => x.email == email) = none →
       login db verify now email password = Except.error ErrInvalidLogin) ∧
    (∀ u, db.users.find? (fun x => x.email == email) = some u →
       verify u.password password = false →
       login db verify now email password = Except.error ErrInvalidLogin) := by
  cases hf : db.users.find? (fun u => u.email == email) with
  | none =>
      have hl : login db verify now email password = Except.error ErrInvalidLogin := by
        simp [login, hf]
      refine ⟨?_, ?_, fun _ => hl, ?_⟩
      · rw [hl]
        apply iff_of_false
        · intro h
          exact Bool.noConfusion h
        · rintro ⟨u, hu, -⟩
          exact Option.noConfusion hu
      · intro e he
        rw [hl] at he
        exact ((Except.error.injEq _ _).mp he).symm
      · intro u hu
        exact absurd hu (by simp)
  | some u =>
      cases hv : verify u.password password with
      | false =>
          have hl : login db verify now email password = Except.error ErrInvalidLogin := by
            simp [login, hf, hv]
          refine ⟨?_, ?_, ?_, ?_⟩
          · rw [hl]
            apply iff_of_false
            · intro h
              exact Bool.noConfusion h
            · rintro ⟨w, hw, hvw⟩
              have huw : u = w := (Option.some.injEq _ _).mp hw
              rw [← huw, hv] at hvw
              exact Bool.noConfusion hvw
          · intro e he
            rw [hl] at he
            exact ((Except.error.injEq _ _).mp he).symm
          · intro hn
            exact absurd hn (by simp)
          · intro w hw hvw
            exact hl
      | true =>
          have hl : login db verify now email password =
              Except.ok ({ u with password := "" },
                { userId := u.id, email := u.email, exp := now + 24 * 60 * 60 }) := by
            simp [login, hf, hv]
          refine ⟨?_, ?_, ?_, ?_⟩
          · rw [hl]
            exact iff_of_true rfl ⟨u, rfl, hv⟩
          · intro e he
            rw [hl] at he
            exact Except.noConfusion he
          · intro hn
            exact absurd hn (by simp)
          · intro w hw hvw
            have huw : u = w := (Option.some.injEq _ _).mp hw
            rw [← huw, hv] at hvw
            exact Bool.noConfusion hvw

/-- C6 witness: the login contract evaluated on the concrete store. -/
theorem login_generic_invalid_credentials_witness :
    (isOkE (login regDB verifyEq 0 "a@b.co" "hashedpw1") = true ↔
       ∃ u, regDB.users.find? (fun x => x.email == "a@b.co") = some u ∧
         verifyEq u.password "hashedpw1" = true) ∧
    (∀ e, login regDB verifyEq 0 "a@b.co" "hashedpw1" = Except.error e →
       e = ErrInvalidLogin) ∧
    (regDB.users.find? (fun x => x.email == "a@b.co") = none →
       login regDB verifyEq 0 "a@b.co" "hashedpw1" = Except.error ErrInvalidLogin) ∧
    (∀ u, regDB.users.find? (fun x => x.email == "a@b.co") = some u →
       verifyEq u.password "hashedpw1" = false →
       login regDB verifyEq 0 "a@b.co" "hashedpw1" = Except.error ErrInvalidLogin) :=
  login_generic_invalid_credentials regDB verifyEq 0 "a@b.co" "hashedpw1"

/-! ## C7: password-length boundary -/

/-- C7: for a pattern-valid email, `Register` rejects every password shorter
than 8 characters with `ErrWeakPassword`, and never returns `ErrWeakPassword`
for a password of length exactly 8 (whatever else happens, the strength check
passes). -/
theorem register_password_boundary (db : UserDB) (hash : String → String)
    (newId : String) (now : Nat) (email name password : String)
    (hm : emailMatch email = true) :
    (password.length < 8 →
       register db hash newId now email name password = (Except.error ErrWeakPassword, db)) ∧
    (password.length = 8 →
       ∀ e, (register db hash newId now email name password).1 = Except.error e →
         e ≠ ErrWeakPassword) := by
  have hcond : ¬(emailMatch email = false) := fun hc => by
    rw [hm] at hc
    exact Bool.noConfusion hc
  constructor
  · intro hlt
    unfold register
    rw [if_neg hcond, if_pos hlt]
  · intro h8 e he
    unfold register at he
    rw [if_neg hcond, if_neg (by omega)] at he
    cases hf : db.users.find? (fun u => u.email == email) with
    | none =>
        rw [hf] at he
        exact absurd he (by simp)
    | some u =>
        rw [hf] at he
        have he' : Except.error ErrEmailExists = (Except.error e : Except String User) := he
        have : e = ErrEmailExists := ((Except.error.injEq _ _).mp he').symm
        rw [this]
        decide

/-- C7 witness: with a valid email, the 7-character password is rejected as
weak. -/
theorem register_password_boundary_witness :
    emailMatch "a@b.co" = true ∧
    ((("1234567" : String).length < 8 →
       register regDB idHash "u3" 2 "a@b.co" "Carol" "1234567" =
         (Except.error ErrWeakPassword, regDB)) ∧
     (("1234567" : String).length = 8 →
       ∀ e, (register regDB idHash "u3" 2 "a@b.co" "Carol" "1234567").1 = Except.error e →
         e ≠ ErrWeakPassword)) :=
  ⟨by decide,
    register_password_boundary regDB idHash "u3" 2 "a@b.co" "Carol" "1234567" (by decide)⟩

end NotesApp
